import Mathlib

/-!
Shallow embedding of the Elysium on-chain program
(src/SOL-AR-backend/src/lib.rs).

The program stores one account type, `NoteAccount`, at a program-derived
address computed from the seeds `[b"note", user.key, note_id.to_le_bytes()]`,
so the address is a pure function of the pair `(owner, note_id)`.  We model
a public key as a `Nat`, an address as the pair `(Pubkey, Nat)`, and the
ledger state as an association list from addresses to accounts.  The two
instructions `initialize_note` and `set_permanent` are modelled as state
transformers returning the runtime outcome together with the state after
the call; checks and mutations appear in the order of the source
(Anchor account constraints first, then the handler body).
-/

/-- A public key (32-byte identity in the source), modelled abstractly. -/
abbrev Pubkey := Nat

/-- A program-derived address.  In the source an address is derived from the
seeds `[b"note", user.key, note_id.to_le_bytes()]`, a pure injective function
of `(owner, note_id)`; we model it by the pair itself. -/
abbrev Address := Pubkey × Nat

/-- The address derivation from the `seeds = [b"note", user.key.as_ref(),
note_id.to_le_bytes().as_ref()]` constraint: a pure function of the
`(user, note_id)` pair. -/
def deriveAddress (user : Pubkey) (noteId : Nat) : Address := (user, noteId)

/-- The persisted record of `#[account] pub struct NoteAccount` in the source:
`owner : Pubkey`, `note_id : u64`, `arweave_hash : String`,
`timestamp : i64`, `is_permanent : bool`. -/
structure NoteAccount where
  owner : Pubkey
  note_id : Nat
  arweave_hash : String
  timestamp : Int
  is_permanent : Bool
deriving DecidableEq, Repr

/-- The ledger state: a finite map from addresses to stored accounts,
modelled as an association list. -/
abbrev LedgerState := List (Address × NoteAccount)

/-- Runtime outcomes of the two instructions.  `InvalidNoteId` is the one
error declared by the program's own `#[error_code]` enum; the other three
are the runtime failures of the surrounding account constraints named by
the error taxonomy: `AddressCollision` (the `init` constraint finds an
account already allocated at the derived address), `Unauthorized` (the
`Signer` check fails), `RecordNotFound` (no account exists at the derived
address of a `set_permanent` call). -/
inductive Err where
  | AddressCollision
  | Unauthorized
  | RecordNotFound
  | InvalidNoteId
deriving DecidableEq, Repr

/-- Look up the account stored at an address. -/
def lookupRec : LedgerState → Address → Option NoteAccount
  | [], _ => none
  | (a, r) :: rest, addr => if a = addr then some r else lookupRec rest addr

/-- Overwrite the account stored at an address (in-place mutation of an
existing account). -/
def setRecord (s : LedgerState) (addr : Address) (acct : NoteAccount) : LedgerState :=
  s.map (fun p => if p.1 = addr then (addr, acct) else p)

/-- The `initialize_note` instruction.  The Anchor `init` constraint first
requires the payer `user` to be a signer and the account at the derived
address to be unallocated (an existing account makes the system-program
allocation fail); the handler body then sets `owner = user.key`,
`note_id`, `arweave_hash`, `timestamp` and `is_permanent = false`. -/
def initialize_note (s : LedgerState) (user : Pubkey) (userSigned : Bool)
    (noteId : Nat) (arweaveHash : String) (timestamp : Int) :
    Except Err Unit × LedgerState :=
  if userSigned = false then (.error .Unauthorized, s)
  else
    match lookupRec s (deriveAddress user noteId) with
    | some _ => (.error .AddressCollision, s)
    | none =>
        (.ok (),
          (deriveAddress user noteId,
            { owner := user
              note_id := noteId
              arweave_hash := arweaveHash
              timestamp := timestamp
              is_permanent := false }) :: s)

/-- The `set_permanent` instruction.  The account constraints first require
`user` to be a signer and an account to exist at the derived address; the
handler body then runs `require!(note_account.note_id == note_id,
ErrorCode::InvalidNoteId)` and only afterwards sets
`note_account.is_permanent = true`. -/
def set_permanent (s : LedgerState) (user : Pubkey) (userSigned : Bool)
    (noteId : Nat) : Except Err Unit × LedgerState :=
  if userSigned = false then (.error .Unauthorized, s)
  else
    match lookupRec s (deriveAddress user noteId) with
    | none => (.error .RecordNotFound, s)
    | some acct =>
        if acct.note_id = noteId then
          (.ok (),
            setRecord s (deriveAddress user noteId)
              { acct with is_permanent := true })
        else (.error .InvalidNoteId, s)

/-- One externally invocable operation of the program. -/
inductive Op where
  | init (user : Pubkey) (userSigned : Bool) (noteId : Nat)
      (arweaveHash : String) (timestamp : Int)
  | sealNote (user : Pubkey) (userSigned : Bool) (noteId : Nat)

/-- Run one operation, returning the outcome and the state after the call. -/
def runOp (s : LedgerState) : Op → Except Err Unit × LedgerState
  | .init u sg n h t => initialize_note s u sg n h t
  | .sealNote u sg n => set_permanent s u sg n

/-- Run a sequence of operations, keeping the state after each call
(the state is unchanged when a call fails). -/
def runOps (s : LedgerState) : List Op → LedgerState
  | [] => s
  | op :: ops => runOps (runOp s op).2 ops

/-- A state is well formed when every stored account sits at the address
derived from its own `(owner, note_id)` fields. -/
def WellFormed (s : LedgerState) : Prop :=
  ∀ addr acct, lookupRec s addr = some acct →
    addr = deriveAddress acct.owner acct.note_id

/-- The `space = 8 + 32 + 8 + 64 + 8 + 1` allocation of the `init`
constraint in the source. -/
def noteAccountSpace : Nat := 8 + 32 + 8 + 64 + 8 + 1

/-- The `64` summand of the space allocation: the bytes reserved for the
serialized `arweave_hash` string field. -/
def hashFieldSpace : Nat := 64

/-- Modelled from the spec: the serialized size of the bounded string field
(`content_hash`), a length prefix followed by the content bytes.  The
serialization routine itself is library code not under src/; the spec
describes the persisted string as "bounded string, maximum 64 bytes
content + length prefix". -/
def serializedHashBytes (prefixLen contentLen : Nat) : Nat :=
  prefixLen + contentLen

/-- Modelled from the spec: the whole serialized record, a fixed
discriminator/header (8 bytes), `owner` (32), `note_id` (8), the
serialized string field, `timestamp` (8) and `is_permanent` (1). -/
def serializedRecordBytes (prefixLen contentLen : Nat) : Nat :=
  8 + 32 + 8 + serializedHashBytes prefixLen contentLen + 8 + 1

-- Helper lemmas about the state operations.

theorem setRecord_cons (k : Address) (v : NoteAccount) (tl : LedgerState)
    (ad : Address) (b : NoteAccount) :
    setRecord ((k, v) :: tl) ad b =
      (if k = ad then (ad, b) else (k, v)) :: setRecord tl ad b := rfl

theorem lookupRec_setRecord (s : LedgerState) (ad : Address) (b : NoteAccount)
    (addr : Address) :
    lookupRec (setRecord s ad b) addr =
      if addr = ad then (lookupRec s ad).map (fun _ => b)
      else lookupRec s addr := by
  induction s with
  | nil => simp [setRecord, lookupRec]
  | cons hd tl ih =>
      obtain ⟨k, v⟩ := hd
      rw [setRecord_cons]
      by_cases hk : k = ad <;> by_cases ha : addr = ad
      · rw [if_pos hk]; subst hk; subst ha; simp [lookupRec]
      · rw [if_pos hk]; subst hk; simp [lookupRec, ha, Ne.symm ha, ih]
      · rw [if_neg hk]; subst ha; simp [lookupRec, hk, ih]
      · rw [if_neg hk]; simp [lookupRec, hk, ha, ih]

theorem setRecord_setRecord (s : LedgerState) (ad : Address) (b : NoteAccount) :
    setRecord (setRecord s ad b) ad b = setRecord s ad b := by
  unfold setRecord
  rw [List.map_map]
  apply List.map_congr_left
  intro p _
  by_cases h : p.1 = ad <;> simp [h, Function.comp]

theorem wellFormed_nil : WellFormed [] := by
  intro addr acct h
  simp [lookupRec] at h

theorem wellFormed_initialize_note (s : LedgerState) (u : Pubkey) (sg : Bool)
    (n : Nat) (h : String) (t : Int) (hwf : WellFormed s) :
    WellFormed (initialize_note s u sg n h t).2 := by
  by_cases hsg : sg = false
  · simp only [initialize_note, if_pos hsg]
    exact hwf
  · simp only [initialize_note, if_neg hsg]
    rcases hl : lookupRec s (deriveAddress u n) with _ | acct0
    · simp only [hl]
      intro addr acct hla
      simp only [lookupRec] at hla
      by_cases he : deriveAddress u n = addr
      · rw [if_pos he] at hla
        cases hla
        exact he.symm
      · rw [if_neg he] at hla
        exact hwf addr acct hla
    · simp only [hl]
      exact hwf

theorem wellFormed_set_permanent (s : LedgerState) (u : Pubkey) (sg : Bool)
    (n : Nat) (hwf : WellFormed s) :
    WellFormed (set_permanent s u sg n).2 := by
  by_cases hsg : sg = false
  · simp only [set_permanent, if_pos hsg]
    exact hwf
  · simp only [set_permanent, if_neg hsg]
    rcases hl : lookupRec s (deriveAddress u n) with _ | acct0
    · simp only [hl]
      exact hwf
    · simp only [hl]
      by_cases hid : acct0.note_id = n
      · rw [if_pos hid]
        intro addr acct hla
        rw [lookupRec_setRecord] at hla
        by_cases he : addr = deriveAddress u n
        · rw [if_pos he, hl] at hla
          simp only [Option.map_some'] at hla
          cases hla
          rw [he]
          simpa using hwf _ _ hl
        · rw [if_neg he] at hla
          exact hwf addr acct hla
      · rw [if_neg hid]
        exact hwf

theorem wellFormed_runOp (s : LedgerState) (op : Op) (hwf : WellFormed s) :
    WellFormed (runOp s op).2 := by
  cases op with
  | init u sg n h t => exact wellFormed_initialize_note s u sg n h t hwf
  | sealNote u sg n => exact wellFormed_set_permanent s u sg n hwf

theorem wellFormed_runOps (s : LedgerState) (ops : List Op) (hwf : WellFormed s) :
    WellFormed (runOps s ops) := by
  induction ops generalizing s with
  | nil => exact hwf
  | cons op ops ih => exact ih _ (wellFormed_runOp s op hwf)

theorem sealed_preserved_runOp (s : LedgerState) (op : Op) (addr : Address)
    (a : NoteAccount) (hl : lookupRec s addr = some a)
    (hp : a.is_permanent = true) :
    ∃ a', lookupRec (runOp s op).2 addr = some a' ∧ a'.is_permanent = true := by
  cases op with
  | init u sg n h t =>
      by_cases hsg : sg = false
      · refine ⟨a, ?_, hp⟩
        simp only [runOp, initialize_note, if_pos hsg]
        exact hl
      · simp only [runOp, initialize_note, if_neg hsg]
        rcases he : lookupRec s (deriveAddress u n) with _ | acct0
        · simp only [he]
          refine ⟨a, ?_, hp⟩
          simp only [lookupRec]
          rw [if_neg, hl]
          intro hcontra
          rw [hcontra, hl] at he
          cases he
        · simp only [he]
          exact ⟨a, hl, hp⟩
  | sealNote u sg n =>
      by_cases hsg : sg = false
      · refine ⟨a, ?_, hp⟩
        simp only [runOp, set_permanent, if_pos hsg]
        exact hl
      · simp only [runOp, set_permanent, if_neg hsg]
        rcases he : lookupRec s (deriveAddress u n) with _ | acct0
        · simp only [he]
          exact ⟨a, hl, hp⟩
        · simp only [he]
          by_cases hid : acct0.note_id = n
          · rw [if_pos hid]
            rw [lookupRec_setRecord]
            by_cases hadr : addr = deriveAddress u n
            · refine ⟨{ acct0 with is_permanent := true }, ?_, rfl⟩
              rw [if_pos hadr, he]
              rfl
            · rw [if_neg hadr]
              exact ⟨a, hl, hp⟩
          · rw [if_neg hid]
            exact ⟨a, hl, hp⟩

/-- Claim C1: for every record and every sequence of program operations, once
the record's `is_permanent` field is true it is never set back to false: after
any sequence of `initialize_note` and `set_permanent` calls (including
attempts to re-run `initialize_note` on the existing record) the record still
exists and its flag is still true — no transition leaves the Sealed state. -/
theorem C1_sealed_is_forever (s : LedgerState) (ops : List Op) (addr : Address)
    (a : NoteAccount) (hl : lookupRec s addr = some a)
    (hp : a.is_permanent = true) :
    ∃ a', lookupRec (runOps s ops) addr = some a' ∧ a'.is_permanent = true := by
  induction ops generalizing s a with
  | nil => exact ⟨a, hl, hp⟩
  | cons op ops ih =>
      simp only [runOps]
      obtain ⟨a', hl', hp'⟩ := sealed_preserved_runOp s op addr a hl hp
      exact ih _ _ hl' hp'

/-- Witness for C1: a concrete sealed record survives a concrete operation
sequence with its flag still true. -/
theorem C1_sealed_is_forever_witness :
    lookupRec [((7, 42), ⟨7, 42, "ar://abc123", 1700000000, true⟩)] (7, 42) =
        some ⟨7, 42, "ar://abc123", 1700000000, true⟩ ∧
      (⟨7, 42, "ar://abc123", 1700000000, true⟩ : NoteAccount).is_permanent = true ∧
      ∃ a', lookupRec
          (runOps [((7, 42), ⟨7, 42, "ar://abc123", 1700000000, true⟩)]
            [Op.init 7 true 42 "other" 5, Op.sealNote 7 true 42,
              Op.init 9 true 1 "x" 0])
          (7, 42) = some a' ∧ a'.is_permanent = true :=
  ⟨rfl, rfl, C1_sealed_is_forever _ _ _ _ rfl rfl⟩

/-- Claim C2: a successful `initialize_note` followed immediately by a lookup
at the address derived from `(owner, note_id)` returns a record whose owner
is the calling signer, whose `note_id`, content hash and timestamp equal the
supplied arguments, and whose `is_permanent` is false. -/
theorem C2_create_then_lookup (s : LedgerState) (u : Pubkey) (n : Nat)
    (h : String) (t : Int)
    (hfree : lookupRec s (deriveAddress u n) = none) :
    (initialize_note s u true n h t).1 = .ok () ∧
      lookupRec (initialize_note s u true n h t).2 (deriveAddress u n) =
        some ⟨u, n, h, t, false⟩ := by
  simp [initialize_note, hfree, lookupRec]

/-- Witness for C2 at the spec's own example input. -/
theorem C2_create_then_lookup_witness :
    lookupRec ([] : LedgerState) (deriveAddress 0 42) = none ∧
      ((initialize_note [] 0 true 42 "ar://abc123" 1700000000).1 = .ok () ∧
        lookupRec (initialize_note [] 0 true 42 "ar://abc123" 1700000000).2
          (deriveAddress 0 42) = some ⟨0, 42, "ar://abc123", 1700000000, false⟩) :=
  ⟨rfl, C2_create_then_lookup [] 0 42 "ar://abc123" 1700000000 rfl⟩

/-- Claim C3: creating twice at the same `(owner, note_id)` succeeds the first
time, fails the second time with `AddressCollision`, and leaves the first
record unchanged (the second call does not modify the state at all). -/
theorem C3_double_create (s : LedgerState) (u : Pubkey) (n : Nat)
    (h : String) (t : Int) (h' : String) (t' : Int)
    (hfree : lookupRec s (deriveAddress u n) = none) :
    (initialize_note s u true n h t).1 = .ok () ∧
      (initialize_note (initialize_note s u true n h t).2 u true n h' t').1 =
        .error .AddressCollision ∧
      (initialize_note (initialize_note s u true n h t).2 u true n h' t').2 =
        (initialize_note s u true n h t).2 ∧
      lookupRec
          (initialize_note (initialize_note s u true n h t).2 u true n h' t').2
          (deriveAddress u n) = some ⟨u, n, h, t, false⟩ := by
  simp [initialize_note, hfree, lookupRec]

/-- Witness for C3 at a concrete double creation. -/
theorem C3_double_create_witness :
    lookupRec ([] : LedgerState) (deriveAddress 0 42) = none ∧
      ((initialize_note [] 0 true 42 "a" 1).1 = .ok () ∧
        (initialize_note (initialize_note [] 0 true 42 "a" 1).2 0 true 42 "b" 2).1 =
          .error .AddressCollision ∧
        (initialize_note (initialize_note [] 0 true 42 "a" 1).2 0 true 42 "b" 2).2 =
          (initialize_note [] 0 true 42 "a" 1).2 ∧
        lookupRec
            (initialize_note (initialize_note [] 0 true 42 "a" 1).2 0 true 42 "b" 2).2
            (deriveAddress 0 42) = some ⟨0, 42, "a", 1, false⟩) :=
  ⟨rfl, C3_double_create [] 0 42 "a" 1 "b" 2 rfl⟩

/-- Claim C5: sealing when no record exists at the address derived from the
caller's key and the supplied `note_id` fails with `RecordNotFound` and
leaves the state unchanged, creating no record. -/
theorem C5_seal_missing_record (s : LedgerState) (u : Pubkey) (n : Nat)
    (hfree : lookupRec s (deriveAddress u n) = none) :
    set_permanent s u true n = (.error .RecordNotFound, s) := by
  simp [set_permanent, hfree]

/-- Witness for C5 at the spec's own example input (seal with no prior
create). -/
theorem C5_seal_missing_record_witness :
    lookupRec ([] : LedgerState) (deriveAddress 0 99) = none ∧
      set_permanent [] 0 true 99 = (.error .RecordNotFound, []) :=
  ⟨rfl, C5_seal_missing_record [] 0 99 rfl⟩

/-- Claim C8: every operation is all-or-nothing: whenever `initialize_note`
or `set_permanent` returns any error, the state after the call equals the
state before the call — no partial effects. -/
theorem C8_all_or_nothing (s : LedgerState) (op : Op) (e : Err)
    (herr : (runOp s op).1 = .error e) : (runOp s op).2 = s := by
  cases op with
  | init u sg n h t =>
      by_cases hsg : sg = false
      · simp [runOp, initialize_note, hsg]
      · simp only [runOp, initialize_note, if_neg hsg] at herr ⊢
        rcases he : lookupRec s (deriveAddress u n) with _ | acct0
        · rw [he] at herr
          cases herr
        · rfl
  | sealNote u sg n =>
      by_cases hsg : sg = false
      · simp [runOp, set_permanent, hsg]
      · simp only [runOp, set_permanent, if_neg hsg] at herr ⊢
        rcases he : lookupRec s (deriveAddress u n) with _ | acct0
        · rfl
        · rw [he] at herr
          by_cases hid : acct0.note_id = n
          · simp [hid] at herr
          · simp [hid]

/-- Witness for C8 at a concrete failing call. -/
theorem C8_all_or_nothing_witness :
    (runOp [] (Op.sealNote 0 true 5)).1 = .error .RecordNotFound ∧
      (runOp [] (Op.sealNote 0 true 5)).2 = [] :=
  ⟨rfl, C8_all_or_nothing [] (Op.sealNote 0 true 5) .RecordNotFound rfl⟩

theorem set_permanent_ok (s : LedgerState) (u : Pubkey) (n : Nat)
    (acct : NoteAccount) (hl : lookupRec s (deriveAddress u n) = some acct)
    (hid : acct.note_id = n) :
    set_permanent s u true n =
      (.ok (), setRecord s (deriveAddress u n)
        { acct with is_permanent := true }) := by
  simp [set_permanent, hl, hid]

theorem wellFormed_fields (s : LedgerState) (u : Pubkey) (n : Nat)
    (acct : NoteAccount) (hwf : WellFormed s)
    (hl : lookupRec s (deriveAddress u n) = some acct) :
    acct.owner = u ∧ acct.note_id = n := by
  have h := hwf _ _ hl
  simp only [deriveAddress, Prod.ext_iff] at h
  exact ⟨h.1.symm, h.2.symm⟩

/-- Claim C4: in any state reachable by the program's own operations, sealing
an existing record succeeds and sets `is_permanent` to true, and sealing is
idempotent: a second seal of the same record also succeeds with no error and
the end state after the second call equals the end state after the first. -/
theorem C4_seal_idempotent (ops : List Op) (u : Pubkey) (n : Nat)
    (acct : NoteAccount)
    (hl : lookupRec (runOps [] ops) (deriveAddress u n) = some acct) :
    (set_permanent (runOps [] ops) u true n).1 = .ok () ∧
      lookupRec (set_permanent (runOps [] ops) u true n).2 (deriveAddress u n) =
        some { acct with is_permanent := true } ∧
      (set_permanent (set_permanent (runOps [] ops) u true n).2 u true n).1 =
        .ok () ∧
      (set_permanent (set_permanent (runOps [] ops) u true n).2 u true n).2 =
        (set_permanent (runOps [] ops) u true n).2 := by
  have hwf := wellFormed_runOps [] ops wellFormed_nil
  obtain ⟨-, hid⟩ := wellFormed_fields _ u n acct hwf hl
  have h1 := set_permanent_ok _ u n acct hl hid
  have hl2 : lookupRec (set_permanent (runOps [] ops) u true n).2
      (deriveAddress u n) = some { acct with is_permanent := true } := by
    rw [h1, lookupRec_setRecord, if_pos rfl, hl]
    rfl
  have h2 := set_permanent_ok _ u n { acct with is_permanent := true } hl2 hid
  refine ⟨by rw [h1], hl2, by rw [h2], ?_⟩
  rw [h2, h1]
  exact setRecord_setRecord _ _ _

/-- Witness for C4: create then seal twice at a concrete input. -/
theorem C4_seal_idempotent_witness :
    lookupRec (runOps [] [Op.init 0 true 42 "a" 1]) (deriveAddress 0 42) =
        some ⟨0, 42, "a", 1, false⟩ ∧
      ((set_permanent (runOps [] [Op.init 0 true 42 "a" 1]) 0 true 42).1 =
          .ok () ∧
        lookupRec
            (set_permanent (runOps [] [Op.init 0 true 42 "a" 1]) 0 true 42).2
            (deriveAddress 0 42) = some ⟨0, 42, "a", 1, true⟩ ∧
        (set_permanent
            (set_permanent (runOps [] [Op.init 0 true 42 "a" 1]) 0 true 42).2
            0 true 42).1 = .ok () ∧
        (set_permanent
            (set_permanent (runOps [] [Op.init 0 true 42 "a" 1]) 0 true 42).2
            0 true 42).2 =
          (set_permanent (runOps [] [Op.init 0 true 42 "a" 1]) 0 true 42).2) :=
  ⟨rfl, C4_seal_idempotent [Op.init 0 true 42 "a" 1] 0 42 ⟨0, 42, "a", 1, false⟩ rfl⟩

/-- Claim C6: `set_permanent` fails with `InvalidNoteId` exactly when the
stored `note_id` differs from the supplied argument; every state reachable
through the program's own operations stores each record at the address
derived from its own `(owner, note_id)`; hence in reachable states a seal
call never returns `InvalidNoteId` — that error branch is unreachable. -/
theorem C6_invalid_note_id_unreachable :
    (∀ s u n acct, lookupRec s (deriveAddress u n) = some acct →
        ((set_permanent s u true n).1 = .error .InvalidNoteId ↔
          acct.note_id ≠ n)) ∧
      (∀ ops addr acct, lookupRec (runOps [] ops) addr = some acct →
        addr = deriveAddress acct.owner acct.note_id) ∧
      (∀ ops u sg n,
        (set_permanent (runOps [] ops) u sg n).1 ≠ .error .InvalidNoteId) := by
  refine ⟨?_, ?_, ?_⟩
  · intro s u n acct hl
    by_cases hid : acct.note_id = n
    · rw [set_permanent_ok s u n acct hl hid]
      simp [hid]
    · simp [set_permanent, hl, hid]
  · intro ops addr acct hl
    exact wellFormed_runOps [] ops wellFormed_nil addr acct hl
  · intro ops u sg n
    by_cases hsg : sg = false
    · simp [set_permanent, hsg]
    · simp only [set_permanent, if_neg hsg]
      rcases hl : lookupRec (runOps [] ops) (deriveAddress u n) with _ | acct
      · simp
      · obtain ⟨-, hid⟩ := wellFormed_fields _ u n acct
          (wellFormed_runOps [] ops wellFormed_nil) hl
        simp [hid]

/-- Witness for C6: the stored/argument mismatch criterion evaluated at a
concrete (artificially malformed) state. -/
theorem C6_invalid_note_id_unreachable_witness :
    (set_permanent [((0, 1), ⟨0, 2, "h", 0, false⟩)] 0 true 1).1 =
        .error .InvalidNoteId ↔
      (⟨0, 2, "h", 0, false⟩ : NoteAccount).note_id ≠ 1 :=
  C6_invalid_note_id_unreachable.1 [((0, 1), ⟨0, 2, "h", 0, false⟩)] 0 1
    ⟨0, 2, "h", 0, false⟩ rfl

/-- Claim C7: a successful seal changes only the `is_permanent` field — after
the call the record at the derived address has the same owner, `note_id`,
content hash and timestamp as before — and every other address is untouched;
moreover `initialize_note` stores the calling signer as the owner, so the
owner always equals the actor who created the record and is never changed
afterwards. -/
theorem C7_seal_frame (s : LedgerState) (u : Pubkey) (n : Nat)
    (acct : NoteAccount) (hl : lookupRec s (deriveAddress u n) = some acct)
    (hok : (set_permanent s u true n).1 = .ok ()) :
    lookupRec (set_permanent s u true n).2 (deriveAddress u n) =
        some ⟨acct.owner, acct.note_id, acct.arweave_hash, acct.timestamp, true⟩ ∧
      (∀ addr, addr ≠ deriveAddress u n →
        lookupRec (set_permanent s u true n).2 addr = lookupRec s addr) ∧
      ∀ s' h t acct',
        lookupRec (initialize_note s' u true n h t).2 (deriveAddress u n) =
            some acct' →
        (initialize_note s' u true n h t).1 = .ok () → acct'.owner = u := by
  have hid : acct.note_id = n := by
    by_contra hid
    simp [set_permanent, hl, hid] at hok
  refine ⟨?_, ?_, ?_⟩
  · rw [set_permanent_ok s u n acct hl hid, lookupRec_setRecord, if_pos rfl, hl]
    rfl
  · intro addr hne
    rw [set_permanent_ok s u n acct hl hid, lookupRec_setRecord, if_neg hne]
  · intro s' h t acct' hl' hok'
    rcases hs : lookupRec s' (deriveAddress u n) with _ | a0
    · simp [initialize_note, hs, lookupRec] at hl'
      rw [← hl']
    · simp [initialize_note, hs] at hok'

/-- Witness for C7 at a concrete created-then-sealed record. -/
theorem C7_seal_frame_witness :
    lookupRec [((3, 9), ⟨3, 9, "qm", 11, false⟩)] (deriveAddress 3 9) =
        some ⟨3, 9, "qm", 11, false⟩ ∧
      (set_permanent [((3, 9), ⟨3, 9, "qm", 11, false⟩)] 3 true 9).1 = .ok () ∧
      (lookupRec (set_permanent [((3, 9), ⟨3, 9, "qm", 11, false⟩)] 3 true 9).2
          (deriveAddress 3 9) = some ⟨3, 9, "qm", 11, true⟩ ∧
        (∀ addr, addr ≠ deriveAddress 3 9 →
          lookupRec (set_permanent [((3, 9), ⟨3, 9, "qm", 11, false⟩)] 3 true 9).2
              addr = lookupRec [((3, 9), ⟨3, 9, "qm", 11, false⟩)] addr) ∧
        ∀ s' h t acct',
          lookupRec (initialize_note s' 3 true 9 h t).2 (deriveAddress 3 9) =
              some acct' →
          (initialize_note s' 3 true 9 h t).1 = .ok () → acct'.owner = 3) :=
  ⟨rfl, rfl, C7_seal_frame [((3, 9), ⟨3, 9, "qm", 11, false⟩)] 3 9
    ⟨3, 9, "qm", 11, false⟩ rfl rfl⟩

/-- Claim C10: when a seal by caller `u` with `note_id` `n` succeeds in a
state reachable by the program's own operations, the record it modifies is
the one stored at the address derived from `(u, n)` and that record's stored
owner equals `u`: a caller can never seal a record created by a different
owner, even though `set_permanent` has no explicit owner check. -/
theorem C10_seal_only_own_record (ops : List Op) (u : Pubkey) (n : Nat)
    (hok : (set_permanent (runOps [] ops) u true n).1 = .ok ()) :
    ∃ acct, lookupRec (runOps [] ops) (deriveAddress u n) = some acct ∧
      acct.owner = u ∧ acct.note_id = n ∧
      (set_permanent (runOps [] ops) u true n).2 =
        setRecord (runOps [] ops) (deriveAddress u n)
          { acct with is_permanent := true } ∧
      lookupRec (set_permanent (runOps [] ops) u true n).2 (deriveAddress u n) =
        some { acct with is_permanent := true } := by
  rcases hl : lookupRec (runOps [] ops) (deriveAddress u n) with _ | acct
  · simp [set_permanent, hl] at hok
  · obtain ⟨hown, hid⟩ := wellFormed_fields _ u n acct
      (wellFormed_runOps [] ops wellFormed_nil) hl
    refine ⟨acct, rfl, hown, hid, ?_, ?_⟩
    · rw [set_permanent_ok _ u n acct hl hid]
    · rw [set_permanent_ok _ u n acct hl hid, lookupRec_setRecord, if_pos rfl, hl]
      rfl

/-- Witness for C10: a concrete create by caller 5 followed by a successful
seal by the same caller. -/
theorem C10_seal_only_own_record_witness :
    (set_permanent (runOps [] [Op.init 5 true 7 "h" 3]) 5 true 7).1 = .ok () ∧
      ∃ acct,
        lookupRec (runOps [] [Op.init 5 true 7 "h" 3]) (deriveAddress 5 7) =
            some acct ∧
          acct.owner = 5 ∧ acct.note_id = 7 ∧
          (set_permanent (runOps [] [Op.init 5 true 7 "h" 3]) 5 true 7).2 =
            setRecord (runOps [] [Op.init 5 true 7 "h" 3]) (deriveAddress 5 7)
              { acct with is_permanent := true } ∧
          lookupRec
              (set_permanent (runOps [] [Op.init 5 true 7 "h" 3]) 5 true 7).2
              (deriveAddress 5 7) = some { acct with is_permanent := true } :=
  ⟨rfl, C10_seal_only_own_record [Op.init 5 true 7 "h" 3] 5 7 rfl⟩

/-- Counterexample to C9 as stated: a length prefix takes at least one byte,
so 64 bytes of content plus its prefix need at least 65 bytes, which exceeds
the 64 bytes the allocation reserves for the string field, and the whole
record then exceeds the 121-byte allocation. -/
theorem C9_space_counterexample :
    ¬ serializedHashBytes 1 64 ≤ hashFieldSpace ∧
      ¬ serializedRecordBytes 1 64 ≤ noteAccountSpace := by
  constructor <;> decide

/-- Claim C9 (amended): the persisted record occupies the fixed allocation
`8 + 32 + 8 + 64 + 8 + 1 = 121` bytes — 8 bytes discriminator/header,
32 bytes owner, 8 bytes `note_id`, 64 bytes for the `content_hash` field,
8 bytes timestamp and 1 byte `is_permanent` — and the allocation
accommodates a `content_hash` whose length prefix plus content together fit
in the 64-byte field (content of up to 64 minus the prefix length). -/
theorem C9_space_layout (p c : Nat)
    (hfit : serializedHashBytes p c ≤ hashFieldSpace) :
    noteAccountSpace = 8 + 32 + 8 + 64 + 8 + 1 ∧ noteAccountSpace = 121 ∧
      serializedRecordBytes p c ≤ noteAccountSpace := by
  refine ⟨rfl, rfl, ?_⟩
  simp only [serializedRecordBytes, serializedHashBytes, hashFieldSpace,
    noteAccountSpace] at hfit ⊢
  omega

/-- Witness for C9 (amended) at the documented 4-byte prefix and 60 bytes of
content. -/
theorem C9_space_layout_witness :
    serializedHashBytes 4 60 ≤ hashFieldSpace ∧
      (noteAccountSpace = 8 + 32 + 8 + 64 + 8 + 1 ∧ noteAccountSpace = 121 ∧
        serializedRecordBytes 4 60 ≤ noteAccountSpace) :=
  ⟨by decide, C9_space_layout 4 60 (by decide)⟩
